import Mathlib

/-!
Shallow embedding of the `ai-fast-api` service layer (FastAPI + G4F backend)
and proofs about its behaviour.

The embedding follows `app/models.py`, `app/config.py`,
`app/services/g4f_service.py`, `app/api/chat.py` and `app/api/images.py`.
Calls into the external `g4f` library are modelled as explicit parameters
(the fragments or value the backend produces, or the error it raises);
pydantic models become plain structures; `time.time()` becomes an explicit
clock value; the mutable fields of `G4FService` become an explicit state
record threaded through the operations.
-/

set_option linter.unusedVariables false

namespace AiFastApi

/-- `MessageRole` enum from `app/models.py`. -/
inductive MessageRole where
  | system
  | user
  | assistant
  | function
  | tool
deriving Repr, DecidableEq

/-- `ChatMessage` from `app/models.py` lines 15–19: `role` and `content` are
required pydantic fields, `name` is optional. A value of this type is a
message that passed validation; the attempt of `g4f_service.py` line 206 to
build `ChatMessage(role=None, content=None)` raises `ValidationError` and
therefore produces no value of this type (see
`create_chat_completion_stream` below). -/
structure ChatMessage where
  role : MessageRole
  content : String
  name : Option String := none
deriving Repr, DecidableEq

/-- `ChatCompletionRequest` from `app/models.py`, restricted to the fields the
service layer reads (`model`, `messages`, `stream`, `provider`, `web_search`);
the sampling parameters (`temperature`, `top_p`, penalties, `max_tokens`,
`stop`, `user`) are accepted by the pydantic model but never read by
`G4FService`, so they are omitted from the embedding. -/
structure ChatCompletionRequest where
  model : String := "gpt-4o-mini"
  messages : List ChatMessage
  stream : Bool := false
  provider : Option String := none
  web_search : Bool := false
deriving Repr, DecidableEq

/-- `ChatCompletionChoice` from `app/models.py`. -/
structure ChatCompletionChoice where
  index : Nat
  message : ChatMessage
  finish_reason : Option String := none
deriving Repr, DecidableEq

/-- `ChatCompletionUsage` from `app/models.py`. -/
structure ChatCompletionUsage where
  prompt_tokens : Nat
  completion_tokens : Nat
  total_tokens : Nat
deriving Repr, DecidableEq

/-- `ChatCompletionResponse` from `app/models.py`. -/
structure ChatCompletionResponse where
  id : String
  object : String := "chat.completion"
  created : Nat
  model : String
  choices : List ChatCompletionChoice
  usage : Option ChatCompletionUsage := none
  system_fingerprint : Option String := none
deriving Repr, DecidableEq

/-- `ChatCompletionStreamChoice` from `app/models.py` line 63–67: `delta` is
declared `Dict[str, Any]`, embedded as an association list from field names
to optional values. No code path of this repository ever constructs a value
of this type: the service always feeds `delta` a `ChatMessage` *instance*
(`g4f_service.py` lines 187, 206), which pydantic v2 rejects for a `Dict`
field with a `ValidationError`, so both chunk constructions in the streaming
generator raise instead of producing a value. -/
structure ChatCompletionStreamChoice where
  index : Nat
  delta : List (String × Option String)
  finish_reason : Option String := none
deriving Repr, DecidableEq

/-- `ChatCompletionStreamResponse` from `app/models.py`. -/
structure ChatCompletionStreamResponse where
  id : String
  object : String := "chat.completion.chunk"
  created : Nat
  model : String
  choices : List ChatCompletionStreamChoice
  system_fingerprint : Option String := none
deriving Repr, DecidableEq

/-- `ImageGenerationRequest` from `app/models.py` (all fields the pydantic
model declares except `user`, which no code reads). -/
structure ImageGenerationRequest where
  prompt : String
  model : String := "flux"
  n : Nat := 1
  size : String := "1024x1024"
  quality : String := "standard"
  response_format : String := "url"
  style : Option String := none
  provider : Option String := none
deriving Repr, DecidableEq

/-- `ImageData` from `app/models.py`. -/
structure ImageData where
  url : Option String := none
  b64_json : Option String := none
  revised_prompt : Option String := none
deriving Repr, DecidableEq

/-- `ImageGenerationResponse` from `app/models.py`. -/
structure ImageGenerationResponse where
  created : Nat
  data : List ImageData
deriving Repr, DecidableEq

/-- `ModelInfo` from `app/models.py`. The `permission: List[Dict[str, Any]]`
field defaults to `[]` and no code path ever populates it, so it is embedded
as a list of strings that stays empty. -/
structure ModelInfo where
  id : String
  object : String := "model"
  created : Nat
  owned_by : String
  permission : List String := []
  root : Option String := none
  parent : Option String := none
deriving Repr, DecidableEq

/-- `ProviderInfo` from `app/models.py`; `params: Dict[str, Any]` only ever
holds boolean flags in the source, so it is embedded as an association list
from names to booleans. -/
structure ProviderInfo where
  id : String
  url : Option String := none
  models : List String := []
  params : List (String × Bool) := []
deriving Repr, DecidableEq

/-- `Settings` from `app/config.py`: the G4F-related values with their
environment-variable defaults (`G4F_PROVIDER=auto`, `G4F_MODEL=gpt-4o`,
`G4F_TIMEOUT=60`, `G4F_RETRIES=3`). -/
structure Settings where
  g4f_provider : String := "auto"
  g4f_model : String := "gpt-4o"
  g4f_timeout : Nat := 60
  g4f_retries : Nat := 3
deriving Repr, DecidableEq

/-- The module-level `settings` instance of `app/config.py` with default
environment. -/
def settings : Settings := {}

/-! ## Streaming chat completion (`G4FService.create_chat_completion_stream`) -/

/-- Observable behaviour of one invocation of the backend iterator obtained
from `g4f.ChatCompletion.create(..., stream=True)`: the string fragments it
yields, and `some msg` when it raises an exception with message `msg` (either
at creation time, with `fragments = []` before any yield, or while iterating
after the listed fragments); `none` when iteration completes normally. -/
structure BackendStream where
  fragments : List String
  error : Option String
deriving Repr, DecidableEq

/-- One event yielded by the streaming generator, before SSE serialization:
a stream-response chunk, the error-shaped chunk built in the `except` branch,
or the literal `[DONE]` sentinel. -/
inductive StreamEvent where
  | chunk (r : ChatCompletionStreamResponse)
  | errorChunk (message etype ecode : String)
  | done
deriving Repr, DecidableEq

/-- `G4FService.create_chat_completion_stream` (`g4f_service.py` 147–223) as
a function from the behaviour of the backend to the list of yielded events.
`completion_id` stands for the fabricated `chatcmpl-{uuid4().hex[:29]}` and
`created` for `int(time.time())`. Tracing the pydantic constructions of the
loop body against `app/models.py`:

* `ChatMessage(role=ASSISTANT, content=chunk)` (line 187–190) validates, but
  the enclosing `ChatCompletionStreamChoice(..., delta=<that instance>, ...)`
  raises `ValidationError`: `delta` is declared `Dict[str, Any]`
  (`models.py` line 66) and pydantic v2 rejects a model instance for a
  `Dict` field — so the first non-empty fragment (empty ones are skipped by
  the `if chunk:` guard) aborts the loop into the `except` branch;
* the final chunk (lines 198–210) builds `ChatMessage(role=None,
  content=None)` while `models.py` lines 15–19 declare both fields required,
  which raises `ValidationError` — so when every fragment is falsy and the
  iterator completes, the stop chunk and the `data: [DONE]` sentinel of
  lines 211–212 are never reached either.

Hence every run yields exactly one error-shaped chunk: its message is the
backend exception text when the backend raises before any non-empty fragment
(at creation or mid-iteration), and otherwise the `str()` rendering of the
`ValidationError`, a library-internal string passed in as `deltaDictErr`
(the `Dict`-field rejection) or `requiredFieldsErr` (the missing
role/content rejection). -/
def create_chat_completion_stream (completion_id : String) (created : Nat)
    (request : ChatCompletionRequest) (backend : BackendStream)
    (deltaDictErr requiredFieldsErr : String) : List StreamEvent :=
  if (backend.fragments.filter (fun c => c ≠ "")).isEmpty then
    match backend.error with
    | some e => [StreamEvent.errorChunk e "server_error" "internal_error"]
    | none =>
        [StreamEvent.errorChunk requiredFieldsErr "server_error" "internal_error"]
  else
    [StreamEvent.errorChunk deltaDictErr "server_error" "internal_error"]

/-- SSE serialization of one yielded event, parameterized by the JSON encoders
(`model_dump_json` for chunks, `json.dumps` of the error dict): every yield in
the source is an f-string `data: <payload>\n\n`, and the sentinel is the
literal `data: [DONE]\n\n`. -/
def serializeEvent (dump : ChatCompletionStreamResponse → String)
    (dumpError : String → String → String → String) :
    StreamEvent → String
  | StreamEvent.chunk r => "data: " ++ dump r ++ "\n\n"
  | StreamEvent.errorChunk m t c => "data: " ++ dumpError m t c ++ "\n\n"
  | StreamEvent.done => "data: [DONE]\n\n"

/-- Whether a yielded event is a stream chunk carrying a finish reason in some
choice. -/
def bearsFinishReason : StreamEvent → Bool
  | StreamEvent.chunk r => r.choices.any (fun c => c.finish_reason.isSome)
  | _ => false

/-- C1 (code bug): the specified termination — exactly one finish-reason
chunk with empty delta followed by the `data: [DONE]` sentinel — is never
produced. For every request and every backend outcome the generator yields
exactly one error-shaped chunk, because both chunk constructions raise
pydantic `ValidationError` (see `create_chat_completion_stream`): no event
ever bears a finish reason and the `[DONE]` sentinel is never emitted. At
the concrete failing input — a backend that yields zero fragments and
completes normally, the very case the claim highlights — the stream is the
single error chunk carrying the `ValidationError` text of the
`ChatMessage(role=None, content=None)` construction. The serialization
framing alone survives: under any JSON encoders every serialized element has
the form `data: <payload>\n\n`. -/
theorem stream_never_emits_stop_or_done (completion_id : String)
    (created : Nat) (request : ChatCompletionRequest) (backend : BackendStream)
    (deltaDictErr requiredFieldsErr : String) :
    (∃ msg, create_chat_completion_stream completion_id created request backend
        deltaDictErr requiredFieldsErr =
      [StreamEvent.errorChunk msg "server_error" "internal_error"]) ∧
    ((create_chat_completion_stream completion_id created request backend
        deltaDictErr requiredFieldsErr).filter bearsFinishReason = []) ∧
    StreamEvent.done ∉ create_chat_completion_stream completion_id created
      request backend deltaDictErr requiredFieldsErr ∧
    (∀ dump dumpError,
      ∀ s ∈ (create_chat_completion_stream completion_id created request backend
          deltaDictErr requiredFieldsErr).map (serializeEvent dump dumpError),
        ∃ payload, s = "data: " ++ payload ++ "\n\n") ∧
    (create_chat_completion_stream completion_id created request
        { fragments := [], error := none } deltaDictErr requiredFieldsErr =
      [StreamEvent.errorChunk requiredFieldsErr "server_error"
        "internal_error"]) := by
  have hshape : ∃ msg, create_chat_completion_stream completion_id created
      request backend deltaDictErr requiredFieldsErr =
      [StreamEvent.errorChunk msg "server_error" "internal_error"] := by
    unfold create_chat_completion_stream
    by_cases hemp : (backend.fragments.filter (fun c => c ≠ "")).isEmpty = true
    · rw [if_pos hemp]
      cases backend.error with
      | none => exact ⟨requiredFieldsErr, rfl⟩
      | some e => exact ⟨e, rfl⟩
    · rw [if_neg hemp]
      exact ⟨deltaDictErr, rfl⟩
  obtain ⟨msg, hmsg⟩ := hshape
  refine ⟨⟨msg, hmsg⟩, ?_, ?_, ?_, rfl⟩
  · rw [hmsg]
    rfl
  · rw [hmsg]
    intro hmem
    rcases List.mem_singleton.mp hmem with hc
    exact StreamEvent.noConfusion hc
  · intro dump dumpError s hs
    rw [hmsg] at hs
    rcases List.mem_map.mp hs with ⟨e, he, rfl⟩
    rcases List.mem_singleton.mp he with rfl
    exact ⟨dumpError msg "server_error" "internal_error", rfl⟩

/-! ## Non-streaming chat completion (`G4FService.create_chat_completion`) -/

/-- The fabricated completion id `f"chatcmpl-{uuid.uuid4().hex[:29]}"`
(`g4f_service.py` line 119), as a function of the fresh UUID hex string. -/
def mkCompletionId (uuidHex : String) : String := "chatcmpl-" ++ uuidHex.take 29

/-- `G4FService.create_chat_completion` (`g4f_service.py` 91–145), success and
failure paths of one backend invocation: `uuidHex` stands for the fresh
`uuid4().hex`, `created` for `int(time.time())`, and `backend` for the value
returned (or exception raised) by `g4f.ChatCompletion.create(..., stream=False)`;
the `except` branch re-raises, modelled by propagating the error. -/
def create_chat_completion (uuidHex : String) (created : Nat)
    (request : ChatCompletionRequest) (backend : Except String String) :
    Except String ChatCompletionResponse :=
  match backend with
  | Except.error e => Except.error e
  | Except.ok response_text => Except.ok
      { id := mkCompletionId uuidHex
        object := "chat.completion"
        created := created
        model := request.model
        choices := [{ index := 0
                      message := { role := MessageRole.assistant
                                   content := response_text }
                      finish_reason := some "stop" }]
        usage := some { prompt_tokens := 0, completion_tokens := 0
                        total_tokens := 0 } }

/-- C3: on backend success with non-empty messages, the response has exactly
one choice, carrying the backend text with finish reason `"stop"`, usage
counts all zero, and an id fabricated from the fresh UUID (distinct fresh
UUID prefixes give distinct ids). -/
theorem chat_completion_success_shape (uuidHex : String) (created : Nat)
    (request : ChatCompletionRequest) (text : String)
    (hmsg : request.messages ≠ []) :
    (∃ resp, create_chat_completion uuidHex created request (Except.ok text) =
        Except.ok resp ∧
      resp.choices = [{ index := 0
                        message := { role := MessageRole.assistant
                                     content := text }
                        finish_reason := some "stop" }] ∧
      resp.usage = some { prompt_tokens := 0, completion_tokens := 0
                          total_tokens := 0 } ∧
      resp.id = mkCompletionId uuidHex) ∧
    (∀ uuidHex2, uuidHex.take 29 ≠ uuidHex2.take 29 →
      mkCompletionId uuidHex ≠ mkCompletionId uuidHex2) := by
  refine ⟨⟨_, rfl, rfl, rfl, rfl⟩, ?_⟩
  intro uuidHex2 hne heq
  apply hne
  have hdata := congrArg String.data heq
  simp only [mkCompletionId, String.data_append] at hdata
  exact String.ext (List.append_cancel_left hdata)

/-- Witness for C3 at the concrete end-to-end scenario of the specification:
model `gpt-4o`, one user message `Hello`, backend text `Hi there`. -/
theorem chat_completion_success_shape_witness :
    (({ model := "gpt-4o"
        messages := [{ role := MessageRole.user, content := "Hello" }] } :
        ChatCompletionRequest).messages ≠ []) ∧
    (∃ resp, create_chat_completion "abc123" 42
        { model := "gpt-4o"
          messages := [{ role := MessageRole.user, content := "Hello" }] }
        (Except.ok "Hi there") = Except.ok resp ∧
      resp.choices = [{ index := 0
                        message := { role := MessageRole.assistant
                                     content := "Hi there" }
                        finish_reason := some "stop" }] ∧
      resp.usage = some { prompt_tokens := 0, completion_tokens := 0
                          total_tokens := 0 } ∧
      resp.id = mkCompletionId "abc123") :=
  ⟨by decide,
    (chat_completion_success_shape "abc123" 42
      { model := "gpt-4o"
        messages := [{ role := MessageRole.user, content := "Hello" }] }
      "Hi there" (by decide)).1⟩

/-! ## Image generation (`G4FService.create_image_generation`) -/

/-- `G4FService.create_image_generation` (`g4f_service.py` 229–260): one
backend invocation whose raw value (already coerced to a string by
`image_url if isinstance(image_url, str) else str(image_url)`) becomes the
`url` of a single `ImageData`; `b64_json` is always `None`; the `except`
branch re-raises. -/
def create_image_generation (created : Nat) (request : ImageGenerationRequest)
    (backend : Except String String) : Except String ImageGenerationResponse :=
  match backend with
  | Except.error e => Except.error e
  | Except.ok image_url => Except.ok
      { created := created
        data := [{ url := some image_url, b64_json := none }] }

/-- C10: on backend success the response holds exactly one `ImageData`, whose
`url` is the backend string and whose `b64_json` is `None`; and the result is
identical for any two requests, so `n`, `size`, `quality` and
`response_format` (including `b64_json` and `n > 1`) never change its
shape. -/
theorem image_generation_single_url_entry (created : Nat)
    (r1 r2 : ImageGenerationRequest) (s : String)
    (backend : Except String String) (h : backend = Except.ok s) :
    (∃ resp, create_image_generation created r1 backend = Except.ok resp ∧
      resp.data = [{ url := some s, b64_json := none, revised_prompt := none }]) ∧
    create_image_generation created r1 backend =
      create_image_generation created r2 backend := by
  subst h
  exact ⟨⟨_, rfl, rfl⟩, rfl⟩

/-- Witness for C10: a `b64_json`-format request for three images still yields
one url-tagged entry, identically to a default request. -/
theorem image_generation_single_url_entry_witness :
    ((Except.ok "http://img" : Except String String) = Except.ok "http://img") ∧
    (∃ resp, create_image_generation 9
        { prompt := "a cat", n := 3, response_format := "b64_json" }
        (Except.ok "http://img") = Except.ok resp ∧
      resp.data = [{ url := some "http://img", b64_json := none
                     revised_prompt := none }]) :=
  ⟨rfl,
    (image_generation_single_url_entry 9
      { prompt := "a cat", n := 3, response_format := "b64_json" }
      { prompt := "a cat" } "http://img" (Except.ok "http://img") rfl).1⟩

/-! ## Provider resolution (`G4FService._get_provider`) -/

/-- The provider values `_get_provider` can return: the three importable g4f
provider classes, and the default `RetryProvider([Bing, OpenaiChat, ChatGpt])`
failover chain built in `G4FService.__init__` (all three imports assumed to
succeed, as in the primary import branch of `g4f_service.py` 9–19). -/
inductive Provider where
  | bing
  | openaiChat
  | chatGpt
  | retryDefault
deriving Repr, DecidableEq

/-- The `provider_map` dictionary of `_get_provider`
(`g4f_service.py` 267–273). -/
def provider_map : List (String × Provider) :=
  [("bing", Provider.bing), ("openai", Provider.openaiChat),
   ("chatgpt", Provider.chatGpt)]

/-- The Python `str.lower()` method as used on provider names: characterwise ASCII
lowering (all names involved are ASCII, where the Unicode lowering of Python and
ASCII lowering agree). -/
def py_lower (s : String) : String := String.mk (s.data.map Char.toLower)

/-- `G4FService._get_provider` (`g4f_service.py` 262–275). The Python test
`not provider_name` is true for `None` and for the empty string; lookup is on
`provider_name.lower()` with the default chain as fallback. -/
def get_provider (provider_name : Option String) : Provider :=
  match provider_name with
  | none => Provider.retryDefault
  | some s =>
      if s = "" ∨ py_lower s = "auto" then Provider.retryDefault
      else (provider_map.lookup (py_lower s)).getD Provider.retryDefault

/-- C5: provider resolution is a pure lookup — `None` and `"auto"` both give
the default failover chain, any name whose lowercase form is a key of
`provider_map` resolves to that provider (case-insensitively), and any name
whose lowercase form is not a key falls back to the default chain rather
than failing. -/
theorem get_provider_pure_lookup :
    get_provider none = Provider.retryDefault ∧
    get_provider (some "auto") = Provider.retryDefault ∧
    (∀ s name p, (name, p) ∈ provider_map → py_lower s = name →
      get_provider (some s) = p) ∧
    (∀ s, py_lower s ∉ provider_map.map Prod.fst →
      get_provider (some s) = Provider.retryDefault) := by
  refine ⟨rfl, by decide, ?_, ?_⟩
  · intro s name p hmem hlow
    have hkey : name = "bing" ∧ p = Provider.bing ∨
        name = "openai" ∧ p = Provider.openaiChat ∨
        name = "chatgpt" ∧ p = Provider.chatGpt := by
      simpa [provider_map] using hmem
    have hs : s ≠ "" := by
      intro h0
      subst h0
      rcases hkey with ⟨h, _⟩ | ⟨h, _⟩ | ⟨h, _⟩ <;> rw [← hlow] at h <;>
        exact absurd h (by decide)
    rcases hkey with ⟨h, rfl⟩ | ⟨h, rfl⟩ | ⟨h, rfl⟩ <;>
      subst h <;>
      simp [get_provider, hs, hlow, provider_map, List.lookup]
  · intro s hnot
    by_cases h0 : s = "" ∨ py_lower s = "auto"
    · simp [get_provider, h0]
    · have hb : py_lower s ≠ "bing" := by
        intro h; exact hnot (by simp [provider_map, h])
      have ho : py_lower s ≠ "openai" := by
        intro h; exact hnot (by simp [provider_map, h])
      have hc : py_lower s ≠ "chatgpt" := by
        intro h; exact hnot (by simp [provider_map, h])
      have hb2 : (py_lower s == "bing") = false := beq_eq_false_iff_ne.mpr hb
      have ho2 : (py_lower s == "openai") = false := beq_eq_false_iff_ne.mpr ho
      have hc2 : (py_lower s == "chatgpt") = false := beq_eq_false_iff_ne.mpr hc
      simp [get_provider, h0, provider_map, List.lookup, hb2, ho2, hc2]

/-- Witness for C5: the mixed-case known name `BiNg` resolves to the Bing
provider, and the unknown name `frobnicate` falls back to the default
chain. -/
theorem get_provider_pure_lookup_witness :
    get_provider (some "BiNg") = Provider.bing ∧
    get_provider (some "frobnicate") = Provider.retryDefault :=
  ⟨get_provider_pure_lookup.2.2.1 "BiNg" "bing" Provider.bing (by decide)
      (by decide),
    get_provider_pure_lookup.2.2.2 "frobnicate" (by decide)⟩

/-! ## Retry policy (tenacity `@retry(stop=stop_after_attempt(settings.g4f_retries))`) -/

/-- Semantics of a tenacity-decorated call with `stop_after_attempt`: starting
at attempt index `k` with `budget` attempts still allowed, run attempts until
one succeeds or the budget is exhausted, propagating the last error; the pair
returns the outcome together with the number of invocations performed. The
exponential-backoff waits (`wait_exponential(multiplier=1, min=4, max=10)`)
only affect real time, not the outcome or the attempt count, and are not
modelled. -/
def retryExec {α : Type} (attempt : Nat → Except String α) :
    Nat → Nat → Except String α × Nat
  | _, 0 => (Except.error "retry budget exhausted", 0)
  | k, 1 => (attempt k, 1)
  | k, n + 2 =>
      match attempt k with
      | Except.ok a => (Except.ok a, 1)
      | Except.error _ =>
          let r := retryExec attempt (k + 1) (n + 1)
          (r.1, r.2 + 1)

/-- The retry-decorated `create_chat_completion` (`g4f_service.py` 87–96):
each attempt `k` invokes the backend once and wraps its outcome; tenacity
stops after `s.g4f_retries` attempts. Returns the final outcome and the
number of backend invocations. -/
def create_chat_completion_retried (s : Settings) (uuidHex : String)
    (created : Nat) (request : ChatCompletionRequest)
    (backend : Nat → Except String String) :
    Except String ChatCompletionResponse × Nat :=
  retryExec (fun k => create_chat_completion uuidHex created request (backend k))
    0 s.g4f_retries

/-- Helper: a run whose first `m` attempts (from index `k`) fail and whose
attempt `k + m` succeeds, with `m + 1` within budget, returns the success
using exactly `m + 1` invocations. -/
theorem retryExec_succeeds_after {α : Type} (attempt : Nat → Except String α) :
    ∀ m k budget a, m + 1 ≤ budget →
      (∀ j, j < m → ∃ e, attempt (k + j) = Except.error e) →
      attempt (k + m) = Except.ok a →
      retryExec attempt k budget = (Except.ok a, m + 1) := by
  intro m
  induction m with
  | zero =>
      intro k budget a hle hfail hok
      rw [Nat.add_zero] at hok
      obtain ⟨n, rfl⟩ : ∃ n, budget = n + 1 := ⟨budget - 1, by omega⟩
      cases n with
      | zero => simp [retryExec, hok]
      | succ n2 => simp [retryExec, hok]
  | succ m2 ih =>
      intro k budget a hle hfail hok
      obtain ⟨n, rfl⟩ : ∃ n, budget = n + 2 := ⟨budget - 2, by omega⟩
      obtain ⟨e, he⟩ := hfail 0 (Nat.succ_pos m2)
      rw [Nat.add_zero] at he
      have hrec := ih (k + 1) (n + 1) a (by omega)
        (fun j hj => by
          obtain ⟨e2, he2⟩ := hfail (j + 1) (by omega)
          refine ⟨e2, ?_⟩
          rw [show k + 1 + j = k + (j + 1) from by omega]
          exact he2)
        (by
          rw [show k + 1 + m2 = k + (m2 + 1) from by omega]
          exact hok)
      simp [retryExec, he, hrec]

/-- Helper: a run over attempts that all fail makes exactly `budget`
invocations (for a positive budget) and propagates an error. -/
theorem retryExec_all_fail {α : Type} (attempt : Nat → Except String α) :
    ∀ budget k, 1 ≤ budget → (∀ j, ∃ e, attempt j = Except.error e) →
      ∃ e, retryExec attempt k budget = (Except.error e, budget) := by
  intro budget
  induction budget with
  | zero => intro k h hf; omega
  | succ n ih =>
      intro k hpos hfail
      cases n with
      | zero =>
          obtain ⟨e, he⟩ := hfail k
          exact ⟨e, by simp [retryExec, he]⟩
      | succ n2 =>
          obtain ⟨e, he⟩ := hfail k
          obtain ⟨e2, he2⟩ := ih (k + 1) (Nat.succ_pos n2) hfail
          exact ⟨e2, by simp [retryExec, he, he2]⟩

/-- C4: with max attempts `s.g4f_retries ≥ 1`, a backend failing on attempts
`0 … N-2` and succeeding on attempt `N-1` (for `1 ≤ N ≤ s.g4f_retries`) makes
`create_chat_completion_retried` return the wrapped successful response using
exactly `N` backend invocations, while an always-failing backend is invoked
exactly `s.g4f_retries` times and the error propagates. -/
theorem retry_policy_exact_attempts (s : Settings) (uuidHex : String)
    (created : Nat) (request : ChatCompletionRequest)
    (hs : 1 ≤ s.g4f_retries) :
    (∀ backend N text, 1 ≤ N → N ≤ s.g4f_retries →
      (∀ j, j + 1 < N → ∃ e, backend j = Except.error e) →
      backend (N - 1) = Except.ok text →
      create_chat_completion_retried s uuidHex created request backend =
        (create_chat_completion uuidHex created request (Except.ok text), N)) ∧
    (∀ backend, (∀ j, ∃ e, (backend j : Except String String) = Except.error e) →
      ∃ e, create_chat_completion_retried s uuidHex created request backend =
        (Except.error e, s.g4f_retries)) := by
  constructor
  · intro backend N text h1 h2 hfail hok
    obtain ⟨m, rfl⟩ : ∃ m, N = m + 1 := ⟨N - 1, by omega⟩
    have hok2 : backend m = Except.ok text := by simpa using hok
    have hA : create_chat_completion uuidHex created request (Except.ok text) =
        Except.ok
          { id := mkCompletionId uuidHex
            object := "chat.completion"
            created := created
            model := request.model
            choices := [{ index := 0
                          message := { role := MessageRole.assistant
                                       content := text }
                          finish_reason := some "stop" }]
            usage := some { prompt_tokens := 0, completion_tokens := 0
                            total_tokens := 0 } } := rfl
    unfold create_chat_completion_retried
    rw [hA]
    refine retryExec_succeeds_after _ m 0 s.g4f_retries _ (by omega) ?_ ?_
    · intro j hj
      obtain ⟨e, he⟩ := hfail j (by omega)
      refine ⟨e, ?_⟩
      simp only [Nat.zero_add]
      rw [he]
      rfl
    · simp only [Nat.zero_add]
      rw [hok2]
      exact hA
  · intro backend hfail
    exact retryExec_all_fail
      (fun k => create_chat_completion uuidHex created request (backend k))
      s.g4f_retries 0 hs
      (fun j => by
        obtain ⟨e, he⟩ := hfail j
        refine ⟨e, ?_⟩
        simp only []
        rw [he]
        rfl)

/-- Witness for C4: with the default `g4f_retries = 3`, a backend failing
twice then succeeding is invoked exactly three times and its success is
returned. -/
theorem retry_policy_exact_attempts_witness :
    1 ≤ settings.g4f_retries ∧
    create_chat_completion_retried settings "ffff" 11
        { messages := [{ role := MessageRole.user, content := "Hi" }] }
        (fun k => if k < 2 then Except.error "boom" else Except.ok "answer") =
      (create_chat_completion "ffff" 11
        { messages := [{ role := MessageRole.user, content := "Hi" }] }
        (Except.ok "answer"), 3) :=
  ⟨by decide,
    (retry_policy_exact_attempts settings "ffff" 11
      { messages := [{ role := MessageRole.user, content := "Hi" }] }
      (by decide)).1
      (fun k => if k < 2 then Except.error "boom" else Except.ok "answer")
      3 "answer" (by decide) (by decide)
      (fun j hj => ⟨"boom", by
        have : j < 2 := by omega
        simp [this]⟩)
      rfl⟩

/-! ## Mid-stream failure and absence of retries on the streaming path -/

/-- Whether a yielded event is the error-shaped chunk built in the `except`
branch of the streaming generator. -/
def isErrorChunk : StreamEvent → Bool
  | StreamEvent.errorChunk _ _ _ => true
  | _ => false

/-- `create_chat_completion_stream` run against per-attempt backend
behaviours. The method carries no `@retry` decorator (compare
`g4f_service.py` lines 87–90 and 225–228, which decorate the other two
service methods, with line 147) and contains a single call to
`g4f.ChatCompletion.create` (lines 167–174), so exactly one backend
invocation — attempt 0 — occurs whatever its outcome. The pair is the list
of yielded events together with the number of backend invocations
performed. -/
def create_chat_completion_stream_run (completion_id : String) (created : Nat)
    (request : ChatCompletionRequest) (attempts : Nat → BackendStream)
    (deltaDictErr requiredFieldsErr : String) : List StreamEvent × Nat :=
  (create_chat_completion_stream completion_id created request (attempts 0)
    deltaDictErr requiredFieldsErr, 1)

/-- C6 counterexample, in two parts. First, the claim asserts that retries
apply to the initial connection attempt of the streaming path, but the
streaming method performs no retry at all: with a backend whose attempt 0
raises at connection time (zero chunks emitted) and whose attempt 1 would
succeed, and the default retry budget of 3 allowing a second attempt, the
stream still makes exactly one backend invocation and yields a single
error-shaped chunk instead of a retried success. Second, the claim asserts
the error chunk carries the backend error message, but once a non-empty
fragment has been produced the generator has already died constructing the
content chunk (`delta: Dict[str, Any]` fed a `ChatMessage` instance), so the
single error chunk carries the pydantic `ValidationError` text — here the
placeholder rendering `pydantic dict-field rejection` — and not the backend
message `boom`. -/
theorem stream_no_initial_retry_counterexample :
    (create_chat_completion_stream_run "chatcmpl-c" 3
        { messages := [{ role := MessageRole.user, content := "Hi" }] }
        (fun k =>
          if k = 0 then { fragments := [], error := some "connection refused" }
          else { fragments := ["hi"], error := none })
        "pydantic dict-field rejection" "pydantic required-fields rejection" =
      ([StreamEvent.errorChunk "connection refused" "server_error"
          "internal_error"], 1) ∧
      2 ≤ settings.g4f_retries) ∧
    (create_chat_completion_stream "chatcmpl-c" 3
        { messages := [{ role := MessageRole.user, content := "Hi" }] }
        { fragments := ["part"], error := some "boom" }
        "pydantic dict-field rejection" "pydantic required-fields rejection" =
      [StreamEvent.errorChunk "pydantic dict-field rejection" "server_error"
          "internal_error"] ∧
      ∀ t c, StreamEvent.errorChunk "boom" t c ∉
        create_chat_completion_stream "chatcmpl-c" 3
          { messages := [{ role := MessageRole.user, content := "Hi" }] }
          { fragments := ["part"], error := some "boom" }
          "pydantic dict-field rejection" "pydantic required-fields rejection") := by
  refine ⟨by decide, by decide, ?_⟩
  intro t c hmem
  rcases List.mem_singleton.mp hmem with hc
  injection hc with h1 h2 h3
  exact absurd h1 (by decide)

/-- C6 (amended): if the backend raises before any non-empty fragment has
been produced — at connection time, or mid-iteration while only falsy
fragments were seen (after a non-empty fragment the generator has already
terminated with a single chunk carrying the pydantic `ValidationError` text,
so a later backend failure is unobservable) — the stream yields exactly one
error-shaped chunk carrying the backend message with type `server_error` and
code `internal_error`, and then terminates: no content chunk, no
finish-reason chunk and no `[DONE]` sentinel; and the streaming path performs
no retry at any point — every run makes exactly one backend invocation. -/
theorem stream_error_single_error_chunk (completion_id : String) (created : Nat)
    (request : ChatCompletionRequest) (backend : BackendStream) (e : String)
    (deltaDictErr requiredFieldsErr : String)
    (h : backend.error = some e)
    (hfr : backend.fragments.filter (fun c => c ≠ "") = []) :
    create_chat_completion_stream completion_id created request backend
        deltaDictErr requiredFieldsErr =
      [StreamEvent.errorChunk e "server_error" "internal_error"] ∧
    ((create_chat_completion_stream completion_id created request backend
        deltaDictErr requiredFieldsErr).filter isErrorChunk).length = 1 ∧
    ((create_chat_completion_stream completion_id created request backend
        deltaDictErr requiredFieldsErr).filter bearsFinishReason) = [] ∧
    StreamEvent.done ∉ create_chat_completion_stream completion_id created
      request backend deltaDictErr requiredFieldsErr ∧
    (∀ attempts, attempts 0 = backend →
      create_chat_completion_stream_run completion_id created request attempts
          deltaDictErr requiredFieldsErr =
        ([StreamEvent.errorChunk e "server_error" "internal_error"], 1)) := by
  have hstream : create_chat_completion_stream completion_id created request
      backend deltaDictErr requiredFieldsErr =
      [StreamEvent.errorChunk e "server_error" "internal_error"] := by
    unfold create_chat_completion_stream
    rw [hfr, h]
    rfl
  refine ⟨hstream, ?_, ?_, ?_, ?_⟩
  · rw [hstream]
    rfl
  · rw [hstream]
    rfl
  · rw [hstream]
    intro hmem
    rcases List.mem_singleton.mp hmem with hc
    exact StreamEvent.noConfusion hc
  · intro attempts hatt
    unfold create_chat_completion_stream_run
    rw [hatt, hstream]

/-- Witness for C6 at a concrete input: a backend that yields only falsy
fragments and then raises `boom`. -/
theorem stream_error_single_error_chunk_witness :
    (({ fragments := ["", ""], error := some "boom" } : BackendStream).error =
      some "boom") ∧
    create_chat_completion_stream "chatcmpl-e" 5
        { messages := [{ role := MessageRole.user, content := "Hi" }] }
        { fragments := ["", ""], error := some "boom" } "va1" "va2" =
      [StreamEvent.errorChunk "boom" "server_error" "internal_error"] :=
  ⟨rfl,
    (stream_error_single_error_chunk "chatcmpl-e" 5
      { messages := [{ role := MessageRole.user, content := "Hi" }] }
      { fragments := ["", ""], error := some "boom" } "boom" "va1" "va2"
      rfl (by decide)).1⟩

/-! ## Model and provider catalog caching (`get_models` / `get_providers`) -/

/-- The mutable cache fields of `G4FService.__init__` (`g4f_service.py`
44–47): the two cache payloads and the single shared timestamp, initially
`None`/`None`/`0`. -/
structure ServiceState where
  models_cache : Option (List ModelInfo) := none
  providers_cache : Option (List ProviderInfo) := none
  cache_timestamp : Nat := 0
deriving Repr, DecidableEq

/-- `self._cache_ttl = 300` (5 minutes). -/
def cache_ttl : Nat := 300

/-- `G4FService._is_cache_valid` (`g4f_service.py` 81–85): false when the
timestamp is still `0`, otherwise `time.time() - timestamp < ttl`. With the
real clock `now ≥ timestamp` and truncated subtraction agrees with the float
difference; when `now < timestamp` the float difference is negative and the
comparison also holds, as it does here. -/
def is_cache_valid (st : ServiceState) (now : Nat) : Bool :=
  if st.cache_timestamp = 0 then false
  else now - st.cache_timestamp < cache_ttl

/-- Python truthiness of an optional list (`self._models_cache` used as a
condition): `None` and `[]` are falsy. -/
def py_truthy {α : Type} : Option (List α) → Bool
  | none => false
  | some [] => false
  | some (_ :: _) => true

/-- `G4FService._get_default_models` (`g4f_service.py` 339–354): the
hard-coded default catalog, stamped with the current time. -/
def get_default_models (now : Nat) : List ModelInfo :=
  [{ id := "gpt-3.5-turbo", object := "model", created := now, owned_by := "g4f" },
   { id := "gpt-4", object := "model", created := now, owned_by := "g4f" }]

/-- `G4FService.get_models` (`g4f_service.py` 277–294). The body of the
`try` block is modelled as the fallible `fetch` action (in the deployed
source it builds the static default list, `Except.ok (get_default_models
now)`, and cannot in fact fail); on success the models cache and the shared
timestamp are updated; the `except` branch returns `_get_default_models()`
without touching the state and never re-raises, so the operation is total. -/
def get_models (st : ServiceState) (now : Nat)
    (fetch : Except String (List ModelInfo)) :
    List ModelInfo × ServiceState :=
  if is_cache_valid st now && py_truthy st.models_cache then
    (st.models_cache.getD [], st)
  else
    match fetch with
    | Except.ok models =>
        (models, { st with models_cache := some models, cache_timestamp := now })
    | Except.error _ => (get_default_models now, st)

/-- `get_models` as the deployed source runs it: the refresh always succeeds
with the static default list. -/
def get_models_run (st : ServiceState) (now : Nat) :
    List ModelInfo × ServiceState :=
  get_models st now (Except.ok (get_default_models now))

/-- The static provider list built in `G4FService.get_providers`
(`g4f_service.py` 307–326). -/
def static_providers_list : List ProviderInfo :=
  [{ id := "OpenAI", url := some "https://api.openai.com"
     models := ["gpt-3.5-turbo", "gpt-4"], params := [("supports_stream", true)] },
   { id := "Bing", url := some "https://www.bing.com"
     models := ["gpt-4"], params := [("supports_stream", true)] },
   { id := "ChatGPT", url := some "https://chat.openai.com"
     models := ["gpt-3.5-turbo", "gpt-4"], params := [("supports_stream", true)] }]

/-- `G4FService.get_providers` (`g4f_service.py` 296–337): serve the
providers cache while valid and truthy, otherwise store the static list and
overwrite the shared `_cache_timestamp` (the `except` branch is unreachable:
the `try` body only builds a literal). -/
def get_providers (st : ServiceState) (now : Nat) :
    List ProviderInfo × ServiceState :=
  if is_cache_valid st now && py_truthy st.providers_cache then
    (st.providers_cache.getD [], st)
  else
    (static_providers_list,
     { st with providers_cache := some static_providers_list
               cache_timestamp := now })

/-- C7: when the refresh fails and no prior models cache exists, `get_models`
returns the hard-coded default set — ids `gpt-3.5-turbo` and `gpt-4` — and
leaves the state untouched; being a total function, it never raises to its
caller. -/
theorem get_models_defaults_on_failed_refresh (st : ServiceState) (now : Nat)
    (err : String) (hcache : st.models_cache = none) :
    (get_models st now (Except.error err)).1 = get_default_models now ∧
    (get_models st now (Except.error err)).1.map ModelInfo.id =
      ["gpt-3.5-turbo", "gpt-4"] ∧
    (get_models st now (Except.error err)).2 = st := by
  have hfalse : py_truthy st.models_cache = false := by rw [hcache]; rfl
  unfold get_models
  rw [hfalse]
  simp [get_default_models]

/-- Witness for C7: the initial state with a failing refresh at time 50. -/
theorem get_models_defaults_on_failed_refresh_witness :
    (({} : ServiceState).models_cache = none) ∧
    (get_models {} 50 (Except.error "network down")).1.map ModelInfo.id =
      ["gpt-3.5-turbo", "gpt-4"] :=
  ⟨rfl, (get_models_defaults_on_failed_refresh {} 50 "network down" rfl).2.1⟩

/-- C8: if the state holds a non-empty models payload and its timestamp is
non-zero and less than `ttl = 300` seconds old — as after any successful
fetch less than `ttl` before `now` — `get_models` returns the cached payload
unchanged and the unmodified state, for every possible refresh outcome
(so the refresh path is not invoked, and payload and timestamp are
untouched). -/
theorem get_models_cache_hit (st : ServiceState) (now : Nat)
    (fetch : Except String (List ModelInfo)) (ms : List ModelInfo)
    (hm : st.models_cache = some ms) (hne : ms ≠ [])
    (hts : 0 < st.cache_timestamp)
    (hfresh : now - st.cache_timestamp < cache_ttl) :
    get_models st now fetch = (ms, st) := by
  have hvalid : is_cache_valid st now = true := by
    unfold is_cache_valid
    rw [if_neg (by omega)]
    exact decide_eq_true hfresh
  have htruthy : py_truthy st.models_cache = true := by
    rw [hm]
    cases ms with
    | nil => exact absurd rfl hne
    | cons a l => rfl
  unfold get_models
  rw [hvalid, htruthy, hm]
  rfl

/-- Witness for C8: a state fetched at time 100 queried again at time 250
returns the cached payload and leaves the state alone, whatever the refresh
would have produced. -/
theorem get_models_cache_hit_witness :
    (((get_models_run {} 100).2).models_cache = some (get_default_models 100)) ∧
    get_models (get_models_run {} 100).2 250 (Except.error "never consulted") =
      (get_default_models 100, (get_models_run {} 100).2) :=
  ⟨rfl,
    get_models_cache_hit (get_models_run {} 100).2 250
      (Except.error "never consulted") (get_default_models 100) rfl
      (by decide) (by decide) (by decide)⟩

/-- C9: the models and providers caches share one `_cache_timestamp`: from
the initial state, fetch models at time 100, refresh providers at time 350
(which overwrites the shared timestamp), then call `get_models` at time 649 —
the models payload fetched 549 ≥ 300 seconds earlier is served as if still
valid, while without the interleaved providers call the same request at 649
would have refreshed the models cache. -/
theorem shared_cache_timestamp_staleness :
    ((get_models_run (get_providers (get_models_run {} 100).2 350).2 649).1 =
      get_default_models 100) ∧
    ((get_models_run (get_providers (get_models_run {} 100).2 350).2 649).2 =
      (get_providers (get_models_run {} 100).2 350).2) ∧
    ((get_providers (get_models_run {} 100).2 350).2.cache_timestamp = 350) ∧
    cache_ttl ≤ 649 - 100 ∧
    ((get_models_run (get_models_run {} 100).2 649).1 =
      get_default_models 649) := by
  decide

/-! ## Model-listing endpoints (`app/api/chat.py`, `app/api/images.py`) -/

/-- The inclusion list of `list_image_models` (`images.py` line 94). -/
def image_model_id_list : List String :=
  ["flux", "dall-e-3", "dall-e-2", "midjourney", "stable-diffusion"]

/-- The exclusion list of `list_chat_models` (`chat.py` line 89) — note it
lacks `stable-diffusion`, unlike the images-endpoint inclusion list. -/
def chat_excluded_id_list : List String :=
  ["flux", "dall-e-3", "dall-e-2", "midjourney"]

/-- The filtering performed by `GET /v1/chat/completions/models`
(`chat.py` 82–94) on the catalog returned by `get_models`. -/
def list_chat_models (models : List ModelInfo) : List ModelInfo :=
  models.filter (fun m => !(chat_excluded_id_list.contains m.id))

/-- The fallback entries `list_image_models` fabricates when the inclusion
filter selects nothing (`images.py` 98–112). -/
def default_image_models (now : Nat) : List ModelInfo :=
  [{ id := "flux", object := "model", created := now, owned_by := "g4f" },
   { id := "dall-e-3", object := "model", created := now, owned_by := "g4f" },
   { id := "dall-e-2", object := "model", created := now, owned_by := "g4f" }]

/-- The filtering performed by `GET /v1/images/models` (`images.py` 87–117)
on the catalog returned by `get_models`: keep the catalog entries whose id is
in the inclusion list, and if none match, return the fabricated default
image models instead. -/
def list_image_models (models : List ModelInfo) (now : Nat) : List ModelInfo :=
  let image_models := models.filter (fun m => image_model_id_list.contains m.id)
  if image_models.isEmpty then default_image_models now else image_models

/-- C2 counterexample: the two endpoints do not use the same fixed list — a
catalog entry with id `stable-diffusion` (a member of the claimed shared
list) survives the filter of the chat endpoint, and on a catalog with no
image-only entry the images endpoint returns fabricated defaults rather than
exactly the (empty) set of catalog entries from the list. -/
theorem model_filter_lists_counterexample :
    ({ id := "stable-diffusion", object := "model", created := 1,
       owned_by := "g4f" } : ModelInfo) ∈
      list_chat_models
        [{ id := "stable-diffusion", object := "model", created := 1,
           owned_by := "g4f" }] ∧
    "stable-diffusion" ∈ image_model_id_list ∧
    list_image_models
        [{ id := "gpt-4", object := "model", created := 1, owned_by := "g4f" }]
        1 ≠ [] := by
  decide

/-- C2 (amended): the chat endpoint returns exactly the catalog entries whose
id is outside the four-element exclusion list `flux`, `dall-e-3`, `dall-e-2`,
`midjourney` (`stable-diffusion` is not excluded); the images endpoint
returns exactly the catalog entries whose id is in the five-element inclusion
list `flux`, `dall-e-3`, `dall-e-2`, `midjourney`, `stable-diffusion` when at
least one matches, and otherwise a fabricated default list of `flux`,
`dall-e-3` and `dall-e-2` entries. -/
theorem model_filter_lists_amended (models : List ModelInfo) (m : ModelInfo)
    (now : Nat) :
    (m ∈ list_chat_models models ↔
      m ∈ models ∧ m.id ∉ chat_excluded_id_list) ∧
    (m ∈ list_image_models models now ↔
      ((m ∈ models ∧ m.id ∈ image_model_id_list) ∨
        ((∀ m2 ∈ models, m2.id ∉ image_model_id_list) ∧
          m ∈ default_image_models now))) := by
  constructor
  · simp [list_chat_models, List.mem_filter]
  · unfold list_image_models
    by_cases hemp :
        (models.filter (fun m2 => image_model_id_list.contains m2.id)).isEmpty = true
    · simp only [hemp, if_true]
      have hnil : models.filter (fun m2 => image_model_id_list.contains m2.id) = [] :=
        List.isEmpty_iff.mp hemp
      have hnone : ∀ m2 ∈ models, m2.id ∉ image_model_id_list := by
        intro m2 hm2 hid
        have hmem : m2 ∈ models.filter (fun m3 => image_model_id_list.contains m3.id) :=
          List.mem_filter.mpr ⟨hm2, by simpa using hid⟩
        rw [hnil] at hmem
        exact absurd hmem (List.not_mem_nil m2)
      constructor
      · intro hm
        exact Or.inr ⟨hnone, hm⟩
      · rintro (⟨hm, hid⟩ | ⟨_, hm⟩)
        · exact absurd hid (hnone m hm)
        · exact hm
    · simp only [hemp, if_false]
      constructor
      · intro hm
        have hf := List.mem_filter.mp hm
        exact Or.inl ⟨hf.1, by simpa using hf.2⟩
      · rintro (⟨hm, hid⟩ | ⟨hall, hm⟩)
        · exact List.mem_filter.mpr ⟨hm, by simpa using hid⟩
        · exfalso
          have hne : models.filter (fun m2 => image_model_id_list.contains m2.id) ≠ [] := by
            intro h0
            exact hemp (List.isEmpty_iff.mpr h0)
          obtain ⟨x, hx⟩ := List.exists_mem_of_ne_nil _ hne
          have hf := List.mem_filter.mp hx
          exact hall x hf.1 (by simpa using hf.2)

end AiFastApi
